import Mathlib

/-!
Verification of the ebs-monitor resize orchestration core against its
natural-language specification.

The Go sources are shallowly embedded: pure functions become Lean functions,
the stateful poll loop becomes explicit state passing, and external
collaborators (AWS API, filesystem commands, clock) become oracle values
supplied through environment records.  Machine integers (`int64`, `int`) are
modelled as `Int`, and where the program performs arithmetic whose overflow
is observable — the size computation — the two's-complement wrap-around of
Go's `int64` operations is made explicit through `wrapInt64`;
`time.Time` values are modelled as `Int` instants (nanoseconds, so that
24 hours is the constant `oneDay`); Go `float64` fields of the record types
are modelled as `Int` because the claims only ever compare them for equality.
Go maps (`map[string][]Event`, `map[string]int`) are modelled as association
lists resp. total functions with default 0, matching Go's zero-value lookup.
-/

set_option autoImplicit false

namespace EbsMonitor

/-! ### Data model (runtime package struct declarations) -/

/-- `EBSVolumeConfig` from the runtime package: identity plus expansion policy.
`int` fields are modelled as `Int`. -/
structure EBSVolumeConfig where
  awsVolumeID : String
  awsDeviceName : String
  awsRegion : String
  incrementSizeGB : Int
  incrementSizePercent : Int
  resizeThreshold : Int
  deriving DecidableEq, Repr

/-- `EBSVolumeState`: a snapshot of an EBS volume at a point in time.
The `float64` measurements are modelled as `Int`; the claims only compare
snapshots for equality. -/
structure EBSVolumeState where
  awsVolumeID : String
  awsDeviceName : String
  localMountPoint : String
  awsDeviceSizeGB : Int
  localDiskSizeGB : Int
  usedSpaceGB : Int
  deriving DecidableEq, Repr

/-- `EBSVolumeResize`: a resize action on an EBS volume. -/
structure EBSVolumeResize where
  startTime : Int
  awsVolumeID : String
  awsDeviceName : String
  awsRegion : String
  originalSizeGB : Int
  newSize : Int
  deriving DecidableEq, Repr

/-- `FilesystemResize`: a resize action on the local filesystem. -/
structure FilesystemResize where
  startTime : Int
  awsVolumeID : String
  awsDeviceName : String
  localMountPoint : String
  awsVolumeSize : Int
  originalSizeGB : Int
  newSize : Int
  deriving DecidableEq, Repr

/-- `Event`: the history record of one action taken on a volume. -/
structure Event where
  eventTime : Int
  volumeState : EBSVolumeState
  volumeAction : EBSVolumeResize
  fsAction : FilesystemResize
  executionSuccess : Bool
  deriving DecidableEq, Repr

/-- Go zero value of `EBSVolumeState` (`InitialiseEBSVolumeState`). -/
def InitialiseEBSVolumeState : EBSVolumeState :=
  { awsVolumeID := "", awsDeviceName := "", localMountPoint := ""
    awsDeviceSizeGB := 0, localDiskSizeGB := 0, usedSpaceGB := 0 }

/-- Go zero value of `EBSVolumeResize`. -/
def zeroEBSVolumeResize : EBSVolumeResize :=
  { startTime := 0, awsVolumeID := "", awsDeviceName := "", awsRegion := ""
    originalSizeGB := 0, newSize := 0 }

/-- Go zero value of `FilesystemResize`. -/
def zeroFilesystemResize : FilesystemResize :=
  { startTime := 0, awsVolumeID := "", awsDeviceName := "", localMountPoint := ""
    awsVolumeSize := 0, originalSizeGB := 0, newSize := 0 }

/-- `InitialiseEvent` from the runtime package: the Go zero-valued `Event`. -/
def InitialiseEvent : Event :=
  { eventTime := 0, volumeState := InitialiseEBSVolumeState
    volumeAction := zeroEBSVolumeResize, fsAction := zeroFilesystemResize
    executionSuccess := false }

/-- `CreateVolumeStateEvent`: builds a state-observation event.  The call to
`time.Now()` inside the Go function is modelled by the explicit instant `t`. -/
def CreateVolumeStateEvent (t : Int) (volumeState : EBSVolumeState) (success : Bool) : Event :=
  { InitialiseEvent with eventTime := t, volumeState := volumeState, executionSuccess := success }

/-- `CreateVolumeResizeActionEvent`: builds a provider-resize action event. -/
def CreateVolumeResizeActionEvent (t : Int) (volumeAction : EBSVolumeResize) (success : Bool) :
    Event :=
  { InitialiseEvent with eventTime := t, volumeAction := volumeAction, executionSuccess := success }

/-- `CreateFSActionEvent`: builds a filesystem-resize action event. -/
def CreateFSActionEvent (t : Int) (fsAction : FilesystemResize) (success : Bool) : Event :=
  { InitialiseEvent with eventTime := t, fsAction := fsAction, executionSuccess := success }

/-! ### SizeCalculator (resize.CalculateNewSize and the size branch of main.run) -/

/-- Two's-complement wrap-around of Go `int64` arithmetic: reduces an
unbounded integer to the representative in `[-2^63, 2^63)`. -/
def wrapInt64 (n : Int) : Int :=
  (n + 2 ^ 63) % 2 ^ 64 - 2 ^ 63

/-- `wrapInt64` is the identity exactly on in-range (non-overflowing) values. -/
theorem wrapInt64_eq_self {n : Int} (h1 : -2 ^ 63 ≤ n) (h2 : n < 2 ^ 63) :
    wrapInt64 n = n := by
  unfold wrapInt64
  have h3 : (0 : Int) ≤ n + 2 ^ 63 := by omega
  have h4 : n + 2 ^ 63 < 2 ^ 64 := by omega
  rw [Int.emod_eq_of_lt h3 h4]
  omega

/-- `resize.CalculateNewSize`: `currentSize + currentSize*percent/100` in Go
`int64` arithmetic — the product and the final sum wrap on overflow
(`wrapInt64`), and the division by the constant 100 truncates toward zero
(`Int.tdiv`; a Go `int64` quotient by 100 cannot itself overflow). -/
def CalculateNewSize (config : EBSVolumeConfig) (currentSize : Int) : Int :=
  let incrementSize := Int.tdiv (wrapInt64 (currentSize * config.incrementSizePercent)) 100
  let newSize := wrapInt64 (currentSize + incrementSize)
  newSize

/-- The new-size computation of `main.run`: if `IncrementSizeGB > 0` the
absolute increment wins (`int64` addition, wrapping on overflow), otherwise
`CalculateNewSize` applies the percentage increment. -/
def computeNewSize (volume : EBSVolumeConfig) (currentSize : Int) : Int :=
  if volume.incrementSizeGB > 0 then
    wrapInt64 (currentSize + volume.incrementSizeGB)
  else
    CalculateNewSize volume currentSize

/-- `configutil.validatePositiveInt`: rejects negative values. -/
def validatePositiveInt (num : Int) : Bool :=
  if num < 0 then false else true

/-- The increment-related checks of `configutil.validateVolume`: all three
numeric fields must pass `validatePositiveInt`. -/
def validateVolumeIncrements (volume : EBSVolumeConfig) : Bool :=
  validatePositiveInt volume.incrementSizeGB &&
    validatePositiveInt volume.incrementSizePercent &&
      validatePositiveInt volume.resizeThreshold

/-! ### Claims C8 and C9: the size computation -/

/-- Example configuration: percentage increment 20, no absolute increment. -/
def cfgPct20 : EBSVolumeConfig := ⟨"", "", "", 0, 20, 80⟩

/-- Example configuration: absolute increment 5 together with percentage 50. -/
def cfgAbs5 : EBSVolumeConfig := ⟨"", "", "", 5, 50, 80⟩

/-- Example configuration with a negative percentage increment. -/
def cfgNegPct : EBSVolumeConfig := ⟨"", "", "", 0, -50, 80⟩

/-- Example configuration: percentage increment 50, no absolute increment. -/
def cfgPct50 : EBSVolumeConfig := ⟨"v", "d", "r", 0, 50, 80⟩

/-- Claim C8 fails as stated at the edge of the `int64` range: with
current = 2^63 - 1 and incrementAbsolute = 5, the Go addition wraps and the
computation returns -9223372036854775804 instead of `current + 5`. -/
theorem computeNewSize_abs_overflow_wraps :
    computeNewSize cfgAbs5 9223372036854775807 = -9223372036854775804 ∧
    (-9223372036854775804 : Int) ≠ 9223372036854775807 + 5 := by
  decide

/-- Claim C8 (amended): whenever the `int64` arithmetic does not overflow —
the sum with the absolute increment, the product with the percentage and the
resulting sum all lie in `[-2^63, 2^63)` — the new-size computation returns
`current + incrementAbsolute` when the absolute increment is positive
(overriding any percentage), and otherwise
`current + trunc(current * incrementPercent / 100)` with integer truncation;
in particular current=100, percent=20 gives 120 and current=10, absolute=5,
percent=50 gives 15. -/
theorem computeNewSize_spec (volume : EBSVolumeConfig) (currentSize : Int)
    (habs : -2 ^ 63 ≤ currentSize + volume.incrementSizeGB ∧
        currentSize + volume.incrementSizeGB < 2 ^ 63)
    (hmul : -2 ^ 63 ≤ currentSize * volume.incrementSizePercent ∧
        currentSize * volume.incrementSizePercent < 2 ^ 63)
    (hsum : -2 ^ 63 ≤ currentSize + Int.tdiv (currentSize * volume.incrementSizePercent) 100 ∧
        currentSize + Int.tdiv (currentSize * volume.incrementSizePercent) 100 < 2 ^ 63) :
    (volume.incrementSizeGB > 0 →
        computeNewSize volume currentSize = currentSize + volume.incrementSizeGB) ∧
    (volume.incrementSizeGB ≤ 0 →
        computeNewSize volume currentSize =
          currentSize + Int.tdiv (currentSize * volume.incrementSizePercent) 100) ∧
    computeNewSize cfgPct20 100 = 120 ∧
    computeNewSize cfgAbs5 10 = 15 := by
  refine ⟨fun h => ?_, fun h => ?_, by decide, by decide⟩
  · simp only [computeNewSize, if_pos h]
    exact wrapInt64_eq_self habs.1 habs.2
  · have h' : ¬ volume.incrementSizeGB > 0 := by omega
    simp only [computeNewSize, CalculateNewSize, if_neg h']
    rw [wrapInt64_eq_self hmul.1 hmul.2, wrapInt64_eq_self hsum.1 hsum.2]

/-- Witness for `computeNewSize_spec`: all hypotheses and both branch
premises discharged at concrete inputs. -/
theorem computeNewSize_spec_witness :
    computeNewSize cfgAbs5 10 = 10 + 5 ∧
    computeNewSize cfgPct20 100 = 100 + Int.tdiv (100 * 20) 100 := by
  constructor
  · exact (computeNewSize_spec cfgAbs5 10 (by decide) (by decide) (by decide)).1 (by decide)
  · exact (computeNewSize_spec cfgPct20 100 (by decide) (by decide) (by decide)).2.1 (by decide)

/-- Claim C9 fails as stated: with a negative percentage increment (which only
config-file validation rejects, not the computation itself) the result is
smaller than the current size: current=100, absolute=0, percent=-50 yields 50. -/
theorem computeNewSize_negative_percent_decreases :
    computeNewSize cfgNegPct 100 = 50 ∧ (50 : Int) < 100 := by
  decide

/-- Claim C9 (amended): for every nonnegative current size and every volume
configuration whose increment fields pass `validatePositiveInt` (as
`configutil.validateVolume` enforces), provided the `int64` arithmetic does
not overflow (the sum with the absolute increment, the product with the
percentage and the resulting sum all stay below `2^63`), the new-size
computation never returns less than `current`. -/
theorem computeNewSize_monotone_of_valid (volume : EBSVolumeConfig) (currentSize : Int)
    (hc : 0 ≤ currentSize) (hv : validateVolumeIncrements volume = true)
    (habs : currentSize + volume.incrementSizeGB < 2 ^ 63)
    (hmul : currentSize * volume.incrementSizePercent < 2 ^ 63)
    (hsum : currentSize + Int.tdiv (currentSize * volume.incrementSizePercent) 100 < 2 ^ 63) :
    currentSize ≤ computeNewSize volume currentSize := by
  have hpct : 0 ≤ volume.incrementSizePercent := by
    by_contra h
    simp [validateVolumeIncrements, validatePositiveInt] at hv
    omega
  have hprod : 0 ≤ currentSize * volume.incrementSizePercent := mul_nonneg hc hpct
  have hinc : 0 ≤ Int.tdiv (currentSize * volume.incrementSizePercent) 100 :=
    Int.tdiv_nonneg hprod (by omega)
  simp only [computeNewSize, CalculateNewSize]
  split
  case isTrue h =>
    rw [wrapInt64_eq_self (by omega) habs]
    omega
  case isFalse h =>
    rw [wrapInt64_eq_self (by omega) hmul]
    rw [wrapInt64_eq_self (by omega) hsum]
    omega

/-- Witness for `computeNewSize_monotone_of_valid` at a concrete valid input. -/
theorem computeNewSize_monotone_of_valid_witness :
    (10 : Int) ≤ computeNewSize cfgPct50 10 :=
  computeNewSize_monotone_of_valid cfgPct50 10 (by decide) (by decide)
    (by decide) (by decide) (by decide)

/-! ### EventLog (runtime package): `AddEvent`, `Equals`, `PruneStaleEvents`

Go's `map[string][]Event` is modelled as an association list whose lookup
returns the first matching entry, matching unique-key map semantics. -/

/-- `EventLog` from the runtime package. -/
abbrev EventLog := List (String × List Event)

/-- Map lookup `eventLog[volumeID]` with its `exists` flag as `Option`. -/
def lookupEvents : EventLog → String → Option (List Event)
  | [], _ => none
  | entry :: rest, volumeID =>
      if entry.1 == volumeID then some entry.2 else lookupEvents rest volumeID

/-- Map store `eventLog[volumeID] = evs`. -/
def setEvents : EventLog → String → List Event → EventLog
  | [], volumeID, evs => [(volumeID, evs)]
  | entry :: rest, volumeID, evs =>
      if entry.1 == volumeID then (entry.1, evs) :: rest
      else entry :: setEvents rest volumeID evs

/-- The duplication check of `EventLog.AddEvent` (src/runtime/methods.go): an
event counts as a duplicate when a stored event has the same `EventTime` and
the same `ExecutionSuccess`; the `VolumeState` snapshot is not compared. -/
def isDuplicateOf (existingEvents : List Event) (event : Event) : Bool :=
  existingEvents.any fun existingEvent =>
    existingEvent.eventTime == event.eventTime &&
      existingEvent.executionSuccess == event.executionSuccess

/-- `EventLog.AddEvent`: appends the event for the volume unless the
duplication check fires, in which case the log is returned unchanged.
The observability emission has no effect on the log and is not modelled. -/
def addEvent (eventLog : EventLog) (volumeID : String) (event : Event) : EventLog :=
  match lookupEvents eventLog volumeID with
  | some existingEvents =>
      if isDuplicateOf existingEvents event then eventLog
      else setEvents eventLog volumeID (existingEvents ++ [event])
  | none => setEvents eventLog volumeID [event]

/-- `Event.Equals` (src/runtime/methods.go): same `EventTime`, same
`VolumeState` and same `ExecutionSuccess`.  Declared in the source but not
used by `AddEvent`. -/
def Event.Equals (e otherEvent : Event) : Bool :=
  e.eventTime == otherEvent.eventTime && e.volumeState == otherEvent.volumeState &&
    e.executionSuccess == otherEvent.executionSuccess

/-- 24 hours in nanoseconds, the resolution of Go `time.Time`. -/
def oneDay : Int := 86400000000000

/-- `EventLog.PruneStaleEvents`: per volume, keep exactly the events whose
timestamp is `After` (strictly greater than) `now - 24h`.  The Go function
reads `time.Now()` itself; the instant is the explicit parameter `now`. -/
def pruneStaleEvents (histories : EventLog) (now : Int) : EventLog :=
  histories.map fun entry =>
    (entry.1, entry.2.filter fun history => decide (now - oneDay < history.eventTime))

/-- The direct event-log append used inside `resize.PerformResize`
(`(*log)[id] = append((*log)[id], event)`), which bypasses `AddEvent`'s
duplication check. -/
def rawAppendEvent (log : EventLog) (volumeID : String) (event : Event) : EventLog :=
  setEvents log volumeID ((lookupEvents log volumeID).getD [] ++ [event])

/-- Looking up the key just stored finds the stored value. -/
theorem lookupEvents_setEvents_self (log : EventLog) (volumeID : String) (evs : List Event) :
    lookupEvents (setEvents log volumeID evs) volumeID = some evs := by
  induction log with
  | nil => simp [setEvents, lookupEvents]
  | cons entry rest ih =>
      rw [setEvents]
      by_cases h : entry.1 = volumeID
      · simp [lookupEvents, h]
      · simp [lookupEvents, h, ih]

/-- Storing an absent key adds exactly one entry. -/
theorem setEvents_length_of_none (log : EventLog) (volumeID : String) (evs : List Event)
    (h : lookupEvents log volumeID = none) :
    (setEvents log volumeID evs).length = log.length + 1 := by
  induction log with
  | nil => simp [setEvents]
  | cons entry rest ih =>
      rw [lookupEvents] at h
      rw [setEvents]
      by_cases hk : entry.1 = volumeID
      · simp [hk] at h
      · simp only [hk, beq_iff_eq, if_neg, not_false_iff, List.length_cons] at h ⊢
        exact congrArg (· + 1) (ih h)

/-- Example snapshot used by the event-log counterexamples. -/
def stateA : EBSVolumeState := ⟨"vol-1", "/dev/xvdf", "/data", 10, 10, 9⟩

/-- A snapshot differing from `stateA` only in the used-space measurement. -/
def stateB : EBSVolumeState := ⟨"vol-1", "/dev/xvdf", "/data", 10, 10, 5⟩

/-- Successful state observation of `stateA` at instant 100. -/
def eventA : Event := CreateVolumeStateEvent 100 stateA true

/-- Successful state observation of `stateB` at the same instant 100. -/
def eventB : Event := CreateVolumeStateEvent 100 stateB true

/-- A log holding only `eventA`. -/
def logA : EventLog := addEvent [] "vol-1" eventA

/-- Claim C3 fails as stated: `eventB` differs from every stored event in its
state snapshot (no stored event `Equals` it), yet `AddEvent` leaves the log
unchanged, because the duplication check compares only the timestamp and the
success flag. -/
theorem addEvent_state_mismatch_suppressed :
    addEvent logA "vol-1" eventB = logA ∧
    ((lookupEvents logA "vol-1").getD []).all (fun e => ! e.Equals eventB) = true ∧
    eventB.volumeState ≠ eventA.volumeState := by
  decide

/-- Claim C3 (amended): `AddEvent` leaves the log unchanged exactly when an
already-stored event for that resource has the same timestamp and the same
success flag (the state snapshot is not compared); otherwise it appends the
event at the end of that resource's sequence; and appending the same event
twice yields the same log as appending it once. -/
theorem addEvent_dedup_spec (eventLog : EventLog) (volumeID : String) (event : Event) :
    (addEvent eventLog volumeID event = eventLog ↔
        isDuplicateOf ((lookupEvents eventLog volumeID).getD []) event = true) ∧
    (isDuplicateOf ((lookupEvents eventLog volumeID).getD []) event = false →
        lookupEvents (addEvent eventLog volumeID event) volumeID =
          some ((lookupEvents eventLog volumeID).getD [] ++ [event])) ∧
    addEvent (addEvent eventLog volumeID event) volumeID event =
      addEvent eventLog volumeID event := by
  rcases hl : lookupEvents eventLog volumeID with _ | evs
  · have hlen := setEvents_length_of_none eventLog volumeID [event] hl
    have hne : setEvents eventLog volumeID [event] ≠ eventLog := by
      intro he
      rw [he] at hlen
      omega
    have hl2 := lookupEvents_setEvents_self eventLog volumeID [event]
    refine ⟨⟨fun h => ?_, fun h => ?_⟩, fun _ => ?_, ?_⟩
    · exact absurd (by simpa [addEvent, hl] using h) hne
    · simp [isDuplicateOf] at h
    · simpa [addEvent, hl] using hl2
    · simp [addEvent, hl, hl2, isDuplicateOf]
  · by_cases hd : isDuplicateOf evs event = true
    · refine ⟨⟨fun _ => by simpa [hl] using hd, fun _ => by simp [addEvent, hl, hd]⟩,
        fun h => ?_, ?_⟩
      · rw [show ((some evs).getD []) = evs from rfl] at h
        rw [h] at hd
        exact absurd hd (by decide)
      · simp [addEvent, hl, hd]
    · have hset := lookupEvents_setEvents_self eventLog volumeID (evs ++ [event])
      have hne : setEvents eventLog volumeID (evs ++ [event]) ≠ eventLog := by
        intro he
        rw [he, hl] at hset
        have : evs ++ [event] = evs := by simpa using hset.symm
        have := congrArg List.length this
        simp at this
      refine ⟨⟨fun h => ?_, fun h => ?_⟩, fun _ => ?_, ?_⟩
      · exact absurd (by simpa [addEvent, hl, hd] using h) hne
      · simp [hl] at h
        exact absurd h hd
      · simpa [addEvent, hl, hd] using hset
      · have hdup2 : isDuplicateOf (evs ++ [event]) event = true := by
          simp [isDuplicateOf]
        simp [addEvent, hl, hd, hset, hdup2]

/-- Lookup commutes with pruning: each volume's sequence is filtered by the
retention predicate, and no key is dropped. -/
theorem lookupEvents_pruneStaleEvents (log : EventLog) (now : Int) (volumeID : String) :
    lookupEvents (pruneStaleEvents log now) volumeID =
      (lookupEvents log volumeID).map
        (fun evs => evs.filter fun e => decide (now - oneDay < e.eventTime)) := by
  induction log with
  | nil => simp [pruneStaleEvents, lookupEvents]
  | cons entry rest ih =>
      rw [pruneStaleEvents, List.map_cons]
      by_cases h : entry.1 = volumeID
      · simp [lookupEvents, h]
      · simpa [lookupEvents, h] using ih

/-- An event at exactly `now - 24h` is not strictly older than 24 hours before
`now`, yet `PruneStaleEvents` removes it: claim C7's "exactly the events older
than 24 hours" fails at the boundary. -/
def staleEvent : Event := CreateVolumeStateEvent 0 stateA true

/-- A log holding only the boundary event. -/
def staleLog : EventLog := [("vol-1", [staleEvent])]

/-- Claim C7 fails as stated: with `now = oneDay`, the stored event's
timestamp 0 equals `now - oneDay` — it is not older than 24 hours before
`now` — but pruning removes it (the sequence becomes empty). -/
theorem pruneStaleEvents_boundary_removed :
    pruneStaleEvents staleLog oneDay = [("vol-1", [])] ∧
    ¬ staleEvent.eventTime < oneDay - oneDay := by
  decide

/-- Claim C7 (amended): `PruneStaleEvents now` removes, for every resource,
exactly the events whose timestamp is 24 hours or more before `now` (keeping
those strictly within the last 24 hours), keeps every resource's key (with an
empty sequence when nothing remains), and pruning again with the same instant
removes nothing further. -/
theorem pruneStaleEvents_spec (log : EventLog) (now : Int) :
    (∀ entry ∈ pruneStaleEvents log now, ∀ e ∈ entry.2, now - oneDay < e.eventTime) ∧
    (pruneStaleEvents log now).map Prod.fst = log.map Prod.fst ∧
    (∀ volumeID, lookupEvents (pruneStaleEvents log now) volumeID =
        (lookupEvents log volumeID).map
          (fun evs => evs.filter fun e => decide (now - oneDay < e.eventTime))) ∧
    pruneStaleEvents (pruneStaleEvents log now) now = pruneStaleEvents log now := by
  refine ⟨?_, ?_, fun volumeID => lookupEvents_pruneStaleEvents log now volumeID, ?_⟩
  · intro entry hentry e he
    rw [pruneStaleEvents, List.mem_map] at hentry
    obtain ⟨orig, _, rfl⟩ := hentry
    have he' : e ∈ orig.2.filter fun history => decide (now - oneDay < history.eventTime) := he
    have hp := List.of_mem_filter he'
    exact of_decide_eq_true hp
  · rw [pruneStaleEvents, List.map_map]
    rfl
  · rw [pruneStaleEvents, pruneStaleEvents, List.map_map]
    apply List.map_congr_left
    intro entry _
    simp [List.filter_filter]

/-! ### ResizeCoordinator (resize.PerformResize, two-phase variant)

The external collaborators are oracles fixed in a `ResizeEnv`: each field is
the outcome the corresponding call would produce at its (unique) call site in
one `PerformResize` invocation.  `Option String` fields are Go `error` results
(`none` = nil); `Except` fields carry the returned value on success.  The
trace records, in order, the external calls made and the stabilization sleep,
so that never-invoked/ordering claims are statements about the trace. -/

/-- One observable step of `resize.PerformResize`. -/
inductive Action where
  | getMountPoint
  | fsResizeCall
  | getAWSSize
  | getLocalSize
  | checkVolumeState
  | resizeVolumeCall
  | sleepStabilize
  deriving DecidableEq, Repr

/-- Collaborator outcomes for one `PerformResize` call.  `fsResize1` and
`fsResize2` are the results of the first and second
`filesystem.ResizeFilesystem` calls; `t1`, `t2`, `t3` are the `time.Now()`
instants at the three points where history records are built. -/
structure ResizeEnv where
  localMountPoint : Except String String
  fsResize1 : Option String
  awsDeviceSizeGB : Except String Int
  localDiskSizeGB : Except String Int
  volumeOptimizing : Except String Bool
  resizeVolume : Option String
  fsResize2 : Option String
  t1 : Int
  t2 : Int
  t3 : Int
  deriving Repr

/-- The result of one `PerformResize` call: the two returned flags, the
returned error, the updated event log, and the call trace. -/
structure ResizeOutcome where
  awsResized : Bool
  fsResized : Bool
  err : Option String
  log : EventLog
  trace : List Action
  deriving DecidableEq, Repr

/-- The concurrent-modification error returned when the volume is optimizing. -/
def concurrentModificationError (volume : EBSVolumeConfig) : String :=
  "volume " ++ volume.awsVolumeID ++ ":" ++ volume.awsDeviceName ++
    " is in optimizing state. Unable to attempt resize action"

/-- `resize.PerformResize` (two-phase variant): STEP 1 attempts the
filesystem grow and records it; on filesystem success the code sets
`fsResized` (and prints that it is exiting early) but does not return; STEP 2
checks the volume modification state and aborts when optimizing; STEP 3
resizes the EBS volume, recording the action and returning on failure; after a
60s stabilization sleep, STEP 4 retries the filesystem grow, recording it. -/
def performResize (volume : EBSVolumeConfig) (newSize : Int) (env : ResizeEnv)
    (log : EventLog) : ResizeOutcome :=
  match env.localMountPoint with
  | Except.error e =>
      { awsResized := false, fsResized := false
        err := some ("failed to get local mount point of volume. error: " ++ e)
        log := log, trace := [Action.getMountPoint] }
  | Except.ok localMountPoint =>
      let fsAction1 : FilesystemResize :=
        { startTime := env.t1, awsVolumeID := volume.awsVolumeID
          awsDeviceName := volume.awsDeviceName, localMountPoint := localMountPoint
          awsVolumeSize := 0, originalSizeGB := 0, newSize := newSize }
      let fsOk1 := env.fsResize1.isNone
      let log1 := rawAppendEvent log volume.awsVolumeID (CreateFSActionEvent env.t1 fsAction1 fsOk1)
      match env.awsDeviceSizeGB with
      | Except.error e =>
          { awsResized := false, fsResized := false
            err := some ("failed to get the size of the EBS volume in AWS. error: " ++ e)
            log := log1
            trace := [Action.getMountPoint, Action.fsResizeCall, Action.getAWSSize] }
      | Except.ok currentAWSVolumeSize =>
        match env.localDiskSizeGB with
        | Except.error e =>
            { awsResized := false, fsResized := false
              err := some ("failed to get the size of the local filesystem. error: " ++ e)
              log := log1
              trace := [Action.getMountPoint, Action.fsResizeCall, Action.getAWSSize,
                        Action.getLocalSize] }
        | Except.ok currentLocalDiskSize =>
          let fsResized := fsOk1
          match env.volumeOptimizing with
          | Except.error e =>
              { awsResized := false, fsResized := fsResized, err := some e, log := log1
                trace := [Action.getMountPoint, Action.fsResizeCall, Action.getAWSSize,
                          Action.getLocalSize, Action.checkVolumeState] }
          | Except.ok isOptimizing =>
            if isOptimizing then
              { awsResized := false, fsResized := fsResized
                err := some (concurrentModificationError volume), log := log1
                trace := [Action.getMountPoint, Action.fsResizeCall, Action.getAWSSize,
                          Action.getLocalSize, Action.checkVolumeState] }
            else
              let volumeAction : EBSVolumeResize :=
                { startTime := env.t2, awsVolumeID := volume.awsVolumeID
                  awsDeviceName := volume.awsDeviceName, awsRegion := volume.awsRegion
                  originalSizeGB := currentAWSVolumeSize, newSize := newSize }
              match env.resizeVolume with
              | some e =>
                  { awsResized := false, fsResized := fsResized, err := some e
                    log := rawAppendEvent log1 volume.awsVolumeID
                      (CreateVolumeResizeActionEvent env.t2 volumeAction false)
                    trace := [Action.getMountPoint, Action.fsResizeCall, Action.getAWSSize,
                              Action.getLocalSize, Action.checkVolumeState,
                              Action.resizeVolumeCall] }
              | none =>
                  let log2 := rawAppendEvent log1 volume.awsVolumeID
                    (CreateVolumeResizeActionEvent env.t2 volumeAction true)
                  let fsAction2 : FilesystemResize :=
                    { startTime := env.t3, awsVolumeID := volume.awsVolumeID
                      awsDeviceName := volume.awsDeviceName, localMountPoint := localMountPoint
                      awsVolumeSize := currentAWSVolumeSize
                      originalSizeGB := currentLocalDiskSize, newSize := newSize }
                  match env.fsResize2 with
                  | some e =>
                      { awsResized := true, fsResized := fsResized, err := some e
                        log := rawAppendEvent log2 volume.awsVolumeID
                          (CreateFSActionEvent env.t3 fsAction2 false)
                        trace := [Action.getMountPoint, Action.fsResizeCall, Action.getAWSSize,
                                  Action.getLocalSize, Action.checkVolumeState,
                                  Action.resizeVolumeCall, Action.sleepStabilize,
                                  Action.fsResizeCall] }
                  | none =>
                      { awsResized := true, fsResized := true, err := none
                        log := rawAppendEvent log2 volume.awsVolumeID
                          (CreateFSActionEvent env.t3 fsAction2 true)
                        trace := [Action.getMountPoint, Action.fsResizeCall, Action.getAWSSize,
                                  Action.getLocalSize, Action.checkVolumeState,
                                  Action.resizeVolumeCall, Action.sleepStabilize,
                                  Action.fsResizeCall] }

/-- An example volume configuration for concrete evaluations. -/
def volExample : EBSVolumeConfig := ⟨"vol-1", "/dev/xvdf", "ap-southeast-2", 5, 20, 80⟩

/-- An environment in which every collaborator call succeeds; in particular
the phase-1 filesystem grow succeeds. -/
def envAllOk : ResizeEnv :=
  { localMountPoint := Except.ok "/data", fsResize1 := none
    awsDeviceSizeGB := Except.ok 10, localDiskSizeGB := Except.ok 10
    volumeOptimizing := Except.ok false, resizeVolume := none, fsResize2 := none
    t1 := 1, t2 := 2, t3 := 3 }

/-- Claim C1 names a behaviour the code does not have: when the phase-1
filesystem grow succeeds, `PerformResize` does not return early — despite its
own "Exiting early" message — and instead proceeds to contact the provider,
invokes the provider resize, and returns `awsResized = true`. -/
theorem performResize_phase1_success_still_invokes_provider :
    envAllOk.fsResize1 = none ∧
    (performResize volExample 15 envAllOk []).awsResized = true ∧
    Action.resizeVolumeCall ∈ (performResize volExample 15 envAllOk []).trace ∧
    Action.checkVolumeState ∈ (performResize volExample 15 envAllOk []).trace ∧
    (performResize volExample 15 envAllOk []).err = none := by
  decide

/-- Claim C4: whenever the modification-state query is reached and reports
the volume as optimizing, `PerformResize` returns the
concurrent-modification error and the provider resize is never invoked. -/
theorem performResize_optimizing_aborts (volume : EBSVolumeConfig) (newSize : Int)
    (env : ResizeEnv) (log : EventLog) (mnt : String) (awsSize localSize : Int)
    (hmnt : env.localMountPoint = Except.ok mnt)
    (hsize : env.awsDeviceSizeGB = Except.ok awsSize)
    (hlocal : env.localDiskSizeGB = Except.ok localSize)
    (hopt : env.volumeOptimizing = Except.ok true) :
    (performResize volume newSize env log).err = some (concurrentModificationError volume) ∧
    Action.resizeVolumeCall ∉ (performResize volume newSize env log).trace := by
  simp [performResize, hmnt, hsize, hlocal, hopt]

/-- Witness for `performResize_optimizing_aborts` at a concrete optimizing
environment. -/
theorem performResize_optimizing_aborts_witness :
    (performResize volExample 15
        { envAllOk with volumeOptimizing := Except.ok true } []).err =
      some (concurrentModificationError volExample) ∧
    Action.resizeVolumeCall ∉
      (performResize volExample 15
        { envAllOk with volumeOptimizing := Except.ok true } []).trace :=
  performResize_optimizing_aborts volExample 15
    { envAllOk with volumeOptimizing := Except.ok true } [] "/data" 10 10 rfl rfl rfl rfl

/-- `fsBeforeResize tr` states that every occurrence of the provider resize
call in `tr` is strictly preceded by a filesystem resize attempt. -/
def fsBeforeResize (tr : List Action) : Prop :=
  ∀ i : Fin tr.length, tr.get i = Action.resizeVolumeCall →
    ∃ j : Fin tr.length, j.val < i.val ∧ tr.get j = Action.fsResizeCall

/-- The call trace of `performResize` as a function of the collaborator
outcomes alone (the trace does not depend on the volume, size or log). -/
def traceOf (env : ResizeEnv) : List Action :=
  match env.localMountPoint with
  | Except.error _ => [Action.getMountPoint]
  | Except.ok _ =>
    match env.awsDeviceSizeGB with
    | Except.error _ => [Action.getMountPoint, Action.fsResizeCall, Action.getAWSSize]
    | Except.ok _ =>
      match env.localDiskSizeGB with
      | Except.error _ => [Action.getMountPoint, Action.fsResizeCall, Action.getAWSSize,
                           Action.getLocalSize]
      | Except.ok _ =>
        match env.volumeOptimizing with
        | Except.error _ => [Action.getMountPoint, Action.fsResizeCall, Action.getAWSSize,
                             Action.getLocalSize, Action.checkVolumeState]
        | Except.ok true => [Action.getMountPoint, Action.fsResizeCall, Action.getAWSSize,
                             Action.getLocalSize, Action.checkVolumeState]
        | Except.ok false =>
          match env.resizeVolume with
          | some _ => [Action.getMountPoint, Action.fsResizeCall, Action.getAWSSize,
                       Action.getLocalSize, Action.checkVolumeState, Action.resizeVolumeCall]
          | none => [Action.getMountPoint, Action.fsResizeCall, Action.getAWSSize,
                     Action.getLocalSize, Action.checkVolumeState, Action.resizeVolumeCall,
                     Action.sleepStabilize, Action.fsResizeCall]

/-- `performResize` produces exactly the trace `traceOf env`. -/
theorem performResize_trace (volume : EBSVolumeConfig) (newSize : Int) (env : ResizeEnv)
    (log : EventLog) :
    (performResize volume newSize env log).trace = traceOf env := by
  rcases env with ⟨mnt, fs1, awsz, lsz, opt, rv, fs2, t1, t2, t3⟩
  rcases mnt with e | mnt
  · simp [performResize, traceOf]
  rcases awsz with e | awsz
  · simp [performResize, traceOf]
  rcases lsz with e | lsz
  · simp [performResize, traceOf]
  rcases opt with e | b
  · simp [performResize, traceOf]
  rcases b with _ | _ <;> rcases rv with e | _ <;> rcases fs2 with e | _ <;>
    simp [performResize, traceOf]

/-- Claim C5: in every `PerformResize` call, a filesystem grow is attempted
before the provider volume is ever mutated, and the provider resize call is
invoked at most once. -/
theorem performResize_fs_first_provider_once (volume : EBSVolumeConfig) (newSize : Int)
    (env : ResizeEnv) (log : EventLog) :
    (performResize volume newSize env log).trace.count Action.resizeVolumeCall ≤ 1 ∧
    fsBeforeResize (performResize volume newSize env log).trace := by
  rw [performResize_trace]
  rcases env with ⟨mnt, fs1, awsz, lsz, opt, rv, fs2, t1, t2, t3⟩
  rcases mnt with e | mnt
  · simp only [traceOf, fsBeforeResize]; decide
  rcases awsz with e | awsz
  · simp only [traceOf, fsBeforeResize]; decide
  rcases lsz with e | lsz
  · simp only [traceOf, fsBeforeResize]; decide
  rcases opt with e | b
  · simp only [traceOf, fsBeforeResize]; decide
  rcases b with _ | _ <;> rcases rv with _ | e <;>
    (simp only [traceOf, fsBeforeResize]; decide)

/-- Claim C6: the stabilization sleep occurs exactly when the provider resize
was invoked and succeeded, and then it sits immediately between the provider
resize call and the filesystem retry. -/
theorem performResize_sleep_iff_provider_success (volume : EBSVolumeConfig) (newSize : Int)
    (env : ResizeEnv) (log : EventLog) :
    (Action.sleepStabilize ∈ (performResize volume newSize env log).trace ↔
        Action.resizeVolumeCall ∈ (performResize volume newSize env log).trace ∧
          env.resizeVolume = none) ∧
    (Action.sleepStabilize ∈ (performResize volume newSize env log).trace →
        ∃ l1 l2, (performResize volume newSize env log).trace =
          l1 ++ [Action.resizeVolumeCall, Action.sleepStabilize, Action.fsResizeCall] ++ l2) := by
  rw [performResize_trace]
  rcases env with ⟨mnt, fs1, awsz, lsz, opt, rv, fs2, t1, t2, t3⟩
  rcases mnt with e | mnt
  · refine ⟨by simp [traceOf], fun h => absurd h (by simp [traceOf])⟩
  rcases awsz with e | awsz
  · refine ⟨by simp [traceOf], fun h => absurd h (by simp [traceOf])⟩
  rcases lsz with e | lsz
  · refine ⟨by simp [traceOf], fun h => absurd h (by simp [traceOf])⟩
  rcases opt with e | b
  · refine ⟨by simp [traceOf], fun h => absurd h (by simp [traceOf])⟩
  rcases b with _ | _
  · rcases rv with _ | e
    · exact ⟨by simp [traceOf],
        fun _ => ⟨[Action.getMountPoint, Action.fsResizeCall, Action.getAWSSize,
          Action.getLocalSize, Action.checkVolumeState], [], by simp [traceOf]⟩⟩
    · refine ⟨by simp [traceOf], fun h => absurd h (by simp [traceOf])⟩
  · refine ⟨by simp [traceOf], fun h => absurd h (by simp [traceOf])⟩

/-! ### Poller and ErrorTracker (main.run monitoring loop)

Per volume and per cycle the loop only inspects whether each collaborator
call failed, so those outcomes are the oracle `CycleEnv`.  The event-log
appends made on this path go through `AddEvent` and never influence the
error counts or eviction, so they are not threaded here.  The error log
`map[string]int` is a total function with Go's zero default. -/

/-- Per-volume collaborator outcomes for one poll cycle: whether
`monitor.GetVolumeState` succeeded, whether `IsThresholdExceeded` returned
true, whether `aws.GetAWSDeviceSizeGB` succeeded, and whether
`resize.PerformResize` returned a nil error. -/
structure CycleEnv where
  fetchOk : Bool
  thresholdExceeded : Bool
  getSizeOk : Bool
  resizeOk : Bool
  deriving DecidableEq, Repr

/-- `errorThreshold` from main.go: consecutive errors before a volume is
removed from monitoring. -/
def errorThreshold : Nat := 5

/-- The per-volume outcome of one cycle: the volume's error count afterwards
and whether the eviction branch removed it from the list. -/
structure CycleResult where
  count : Nat
  evicted : Bool
  deriving DecidableEq, Repr

/-- The per-volume body of the monitoring loop in `main.run`: on fetch
failure the count is incremented and the volume is evicted when the count
reaches `errorThreshold`; on fetch success the count is reset to 0, and only
then do the size fetch and the resize run, each failure incrementing and
each success resetting the count, with no eviction check on that path. -/
def cycleStep (count : Nat) (env : CycleEnv) : CycleResult :=
  if env.fetchOk = false then
    { count := count + 1, evicted := decide (count + 1 ≥ errorThreshold) }
  else
    let count := 0
    if env.thresholdExceeded then
      if env.getSizeOk = false then
        { count := count + 1, evicted := false }
      else
        let count := 0
        if env.resizeOk = false then
          { count := count + 1, evicted := false }
        else
          { count := 0, evicted := false }
    else
      { count := count, evicted := false }

/-- Claim C2 fails as stated: a volume with failure count 4 whose state fetch
succeeds but whose resize fails ends the cycle with count 1 — the fetch
success reset the count before the resize failure incremented it — and it is
not evicted, because the eviction check exists only on the fetch-failure
branch.  The claim instead requires the count to reach 4 + 1 = 5 and the
volume to be removed. -/
theorem cycleStep_resize_failure_not_evicted :
    cycleStep 4 ⟨true, true, true, false⟩ = ⟨1, false⟩ ∧
    ¬ ((cycleStep 4 ⟨true, true, true, false⟩).count = 4 + 1 ∧
        (cycleStep 4 ⟨true, true, true, false⟩).evicted = true) := by
  decide

/-- Claim C2 (amended): on a state-fetch failure the count increments and the
volume is evicted exactly when the new count reaches 5; a state-fetch success
resets the count to 0 before any resize work and never evicts; a size-fetch
or resize failure afterwards increments the count from that reset (to 1)
without any eviction check; a successful resize resets it to 0. -/
theorem cycleStep_error_tracking_spec (count : Nat) (env : CycleEnv) :
    (env.fetchOk = false →
        cycleStep count env = ⟨count + 1, decide (count + 1 ≥ errorThreshold)⟩) ∧
    (env.fetchOk = true → (cycleStep count env).evicted = false) ∧
    (env.fetchOk = true → env.thresholdExceeded = false → (cycleStep count env).count = 0) ∧
    (env.fetchOk = true → env.thresholdExceeded = true → env.getSizeOk = false →
        (cycleStep count env).count = 1) ∧
    (env.fetchOk = true → env.thresholdExceeded = true → env.getSizeOk = true →
        (cycleStep count env).count = if env.resizeOk then 0 else 1) := by
  rcases env with ⟨f, t, g, r⟩
  cases f <;> cases t <;> cases g <;> cases r <;> simp [cycleStep]

/-- Witness for `cycleStep_error_tracking_spec`: a fifth consecutive fetch
failure evicts with count 5. -/
theorem cycleStep_error_tracking_spec_witness :
    cycleStep 4 ⟨false, false, false, false⟩ = ⟨5, true⟩ := by
  have h := (cycleStep_error_tracking_spec 4 ⟨false, false, false, false⟩).1 rfl
  simpa using h

/-- The indexed iteration of `main.run` over the volume list: process the
volume at `index`; if the eviction branch fires, splice it out at `index` and
continue without advancing the index, otherwise advance.  Returns the
surviving list, the sequence of volumes processed (in order), and the final
error log. -/
def passLoop (cycleEnvOf : EBSVolumeConfig → CycleEnv) (volumes : List EBSVolumeConfig)
    (index : Nat) (processed : List EBSVolumeConfig) (errorLog : String → Nat) :
    List EBSVolumeConfig × List EBSVolumeConfig × (String → Nat) :=
  if h : index < volumes.length then
    let volume := volumes[index]
    let r := cycleStep (errorLog volume.awsVolumeID) (cycleEnvOf volume)
    let errorLog1 : String → Nat :=
      fun id => if id = volume.awsVolumeID then r.count else errorLog id
    if r.evicted then
      passLoop cycleEnvOf (volumes.eraseIdx index) index (processed ++ [volume]) errorLog1
    else
      passLoop cycleEnvOf volumes (index + 1) (processed ++ [volume]) errorLog1
  else
    (volumes, processed, errorLog)
termination_by volumes.length - index
decreasing_by
  · have := List.length_eraseIdx_of_lt h
    omega
  · omega

/-- Dropping up to a spliced-out position skips exactly the spliced element. -/
theorem drop_eraseIdx_self {α : Type} (l : List α) (i : Nat) (h : i < l.length) :
    (l.eraseIdx i).drop i = l.drop (i + 1) := by
  rw [List.eraseIdx_eq_take_drop_succ]
  have hlen : (l.take i).length = i := by
    rw [List.length_take]
    omega
  calc (l.take i ++ l.drop (i + 1)).drop i
      = (l.take i ++ l.drop (i + 1)).drop (l.take i).length := by rw [hlen]
    _ = l.drop (i + 1) := List.drop_left _ _

/-- The processed sequence of `passLoop` is the input suffix from `index`,
independently of which volumes get evicted. -/
theorem passLoop_processed_eq (cycleEnvOf : EBSVolumeConfig → CycleEnv) :
    ∀ n (volumes : List EBSVolumeConfig) (index : Nat) (processed : List EBSVolumeConfig)
      (errorLog : String → Nat), volumes.length - index = n →
      (passLoop cycleEnvOf volumes index processed errorLog).2.1 =
        processed ++ volumes.drop index := by
  intro n
  induction n using Nat.strong_induction_on with
  | _ n ih =>
    intro volumes index processed errorLog hn
    rw [passLoop]
    split
    case isTrue h =>
      simp only []
      split
      case isTrue hev =>
        have hlen := List.length_eraseIdx_of_lt h
        have hm : (volumes.eraseIdx index).length - index < n := by omega
        rw [ih _ hm (volumes.eraseIdx index) index _ _ rfl]
        rw [drop_eraseIdx_self volumes index h]
        rw [List.drop_eq_getElem_cons h]
        simp
      case isFalse hev =>
        have hm : volumes.length - (index + 1) < n := by omega
        rw [ih _ hm volumes (index + 1) _ _ rfl]
        rw [List.drop_eq_getElem_cons h]
        simp
    case isFalse h =>
      rw [List.drop_eq_nil_of_le (by omega)]
      simp

/-- Claim C10: a full pass of the loop over the active list processes every
resource exactly once and in the original order, regardless of which
resources the splice-and-continue eviction removes along the way: the
processed sequence equals the starting list. -/
theorem passLoop_processes_each_exactly_once (cycleEnvOf : EBSVolumeConfig → CycleEnv)
    (volumes : List EBSVolumeConfig) (errorLog : String → Nat) :
    (passLoop cycleEnvOf volumes 0 [] errorLog).2.1 = volumes := by
  simpa using passLoop_processed_eq cycleEnvOf (volumes.length - 0) volumes 0 [] errorLog rfl

end EbsMonitor
